import Mathlib

/-!
Verification of the Apkeep downloader module (`src/downloader/apkeep.py`).

The module is embedded shallowly.  Filesystem paths are lists of path
components (package identifiers are treated as single components, as the
callers pass dot-separated Android package names with no separator).  The
out-of-scope collaborators — the environment, the filesystem, the external
`apkeep` process and the byte-level `decode(errors="replace")` primitive —
are oracles packed into a `World` value.  Each operation returns its result
(`Except` over the `DownloadError` message) together with a trace of the
observable effects it performed, in order: environment reads, filesystem
existence checks, process spawns, log messages, zip-archive creation and
the zip entries written.  Delete events are in the vocabulary so that
"never deletes" is a statement about the trace, and are never emitted
because the source performs no deletion.
-/

/-- Filesystem path, as a list of components. -/
abbrev FPath := List String

/-- Rendering of a path as Python prints it in an f-string. -/
def pathStr (p : FPath) : String := String.intercalate "/" p

/-- Python `Path.name`: the final path component. -/
def pathName (p : FPath) : String := (p.getLast?).getD ""

/-- Oracle for the filesystem at one instant: `Path.exists()`, `Path.is_dir()`
and `Path.rglob("*")`.  `rglob` only ever yields paths below the globbed
directory, which pathlib guarantees. -/
structure FS where
  pexists : FPath → Bool
  isDir : FPath → Bool
  rglob : FPath → List FPath
  rglob_sub : ∀ p f, f ∈ rglob p → p <+: f

/-- Oracle for one run of the external process: exit status and the two
captured output streams, as raw bytes. -/
structure ProcResult where
  returncode : Int
  stdout : List Nat
  stderr : List Nat

/-- One call's ambient world: the two credential environment variables, the
configured temp folder (path and name), the filesystem before the call
(`fs0`) and after the external process ran (`fs1`), the process outcome,
the oracle for `bytes.decode(errors="replace")`, and the elapsed-time text
interpolated into the informational log line. -/
structure World where
  email : String
  token : String
  tempFolder : FPath
  tempFolderName : String
  fs0 : FS
  proc : ProcResult
  fs1 : FS
  decodeReplace : List Nat → String
  elapsedStr : String

/-- Observable effects, in the order the module performs them. -/
inductive Ev where
  | envRead (name : String)
  | fsCheck (path : FPath)
  | spawn (cmd : List String)
  | logWarn (msg : String)
  | logInfo (msg : String)
  | zipCreate (path : FPath) (compression : Nat)
  | zipEntry (src : FPath) (arcname : FPath)
  | deleteFile (path : FPath)
  | deleteDir (path : FPath)
  deriving DecidableEq

/-- Value of `zipfile.ZIP_DEFLATED`. -/
def ZIP_DEFLATED : Nat := 8

def Ev.isSpawn : Ev → Bool
  | .spawn _ => true
  | _ => false

def Ev.isFsCheck : Ev → Bool
  | .fsCheck _ => true
  | _ => false

def Ev.isWarn : Ev → Bool
  | .logWarn _ => true
  | _ => false

def Ev.isDelete : Ev → Bool
  | .deleteFile _ => true
  | .deleteDir _ => true
  | _ => false

def Ev.isCreate : Ev → Bool
  | .zipCreate _ _ => true
  | _ => false

def Ev.isZipWrite : Ev → Bool
  | .zipEntry _ _ => true
  | _ => false

/-- The (source path, archive entry name) pairs written to the archive, read
off the trace. -/
def zipEntriesOf (evs : List Ev) : List (FPath × FPath) :=
  evs.filterMap fun e =>
    match e with
    | .zipEntry f a => some (f, a)
    | _ => none

/-- Embedding of `Apkeep._run_apkeep`.  Returns the artifact file name or the
`DownloadError` message, plus the effect trace. -/
def run_apkeep (w : World) (package_name : String) : Except String String × List Ev :=
  let email := w.email
  let token := w.token
  let evs0 := [Ev.envRead "APKEEP_EMAIL", Ev.envRead "APKEEP_TOKEN"]
  if email = "" ∨ token = "" then
    (Except.error "APKEEP_EMAIL and APKEEP_TOKEN must be set in environment.", evs0)
  else
    let file_name := package_name ++ ".apk"
    let file_path := w.tempFolder ++ [file_name]
    let folder_path := w.tempFolder ++ [package_name]
    let zip_path := w.tempFolder ++ [package_name ++ ".zip"]
    if w.fs0.pexists file_path then
      (Except.ok file_name, evs0 ++ [Ev.fsCheck file_path])
    else if w.fs0.pexists zip_path then
      (Except.ok (pathName zip_path), evs0 ++ [Ev.fsCheck file_path, Ev.fsCheck zip_path])
    else
      let cmd := ["apkeep", "-a", package_name, "-d", "google-play", "-e", email,
                  "-t", token, "-o", "split_apk=true", w.tempFolderName]
      let evs1 := evs0 ++ [Ev.fsCheck file_path, Ev.fsCheck zip_path, Ev.spawn cmd]
      if w.proc.returncode ≠ 0 then
        let err_output :=
          if w.proc.stderr ≠ [] then (w.decodeReplace w.proc.stderr).trim else "no details"
        (Except.error ("apkeep failed with exit code " ++ toString w.proc.returncode ++
          " for " ++ package_name ++ ": " ++ err_output), evs1)
      else
        let evs2 := evs1 ++
          [Ev.logInfo ("apkeep completed for " ++ package_name ++ " in " ++
            w.elapsedStr ++ " seconds.")]
        if w.fs1.pexists file_path then
          (Except.ok file_name, evs2 ++ [Ev.fsCheck file_path])
        else if w.fs1.pexists folder_path && w.fs1.isDir folder_path then
          let files := w.fs1.rglob folder_path
          let entries := files.map fun f => Ev.zipEntry f (f.drop w.tempFolder.length)
          (Except.ok (pathName zip_path),
            evs2 ++ [Ev.fsCheck file_path, Ev.fsCheck folder_path,
              Ev.zipCreate zip_path ZIP_DEFLATED] ++ entries)
        else
          (Except.error ("APK not found after apkeep. Expected " ++ pathStr file_path ++
            " or " ++ pathStr folder_path),
            evs2 ++ [Ev.fsCheck file_path, Ev.fsCheck folder_path])

/-- The warning text emitted by `Apkeep.specific_version`. -/
def warn_msg (package_name version : String) : String :=
  "apkeep with Google Play does not support specific versions. Requested " ++
    package_name ++ "@" ++ version ++ ", downloading latest instead."

/-- Embedding of `Apkeep.latest_version` (the `app` argument contributes only
its `package_name`). -/
def latest_version (w : World) (package_name : String) :
    Except String (String × String) × List Ev :=
  match run_apkeep w package_name with
  | (Except.ok file_name, evs) =>
      (Except.ok (file_name, "apkeep://google-play/" ++ package_name), evs)
  | (Except.error e, evs) => (Except.error e, evs)

/-- Embedding of `Apkeep.specific_version`: warns, then delegates exactly like
`latest_version`. -/
def specific_version (w : World) (package_name version : String) :
    Except String (String × String) × List Ev :=
  match run_apkeep w package_name with
  | (Except.ok file_name, evs) =>
      (Except.ok (file_name, "apkeep://google-play/" ++ package_name),
        Ev.logWarn (warn_msg package_name version) :: evs)
  | (Except.error e, evs) =>
      (Except.error e, Ev.logWarn (warn_msg package_name version) :: evs)

/-! Concrete worlds used by witnesses and counterexamples. -/

/-- Filesystem holding exactly the single-file artifact for `com.app`. -/
def fsWithFile : FS where
  pexists := fun p => p = ["tmp", "com.app.apk"]
  isDir := fun _ => false
  rglob := fun _ => []
  rglob_sub := fun _ f h => absurd h (List.not_mem_nil f)

/-- Filesystem holding nothing. -/
def fsEmpty : FS where
  pexists := fun _ => false
  isDir := fun _ => false
  rglob := fun _ => []
  rglob_sub := fun _ f h => absurd h (List.not_mem_nil f)

/-- Filesystem holding only the archive for `com.app`. -/
def fsWithZip : FS where
  pexists := fun p => p = ["tmp", "com.app.zip"]
  isDir := fun _ => false
  rglob := fun _ => []
  rglob_sub := fun _ f h => absurd h (List.not_mem_nil f)

/-- Filesystem holding the unpacked split-APK directory for `com.app`, with
two files inside. -/
def fsWithDir : FS where
  pexists := fun p => p = ["tmp", "com.app"]
  isDir := fun p => p = ["tmp", "com.app"]
  rglob := fun p =>
    if p = ["tmp", "com.app"] then
      [["tmp", "com.app", "base.apk"], ["tmp", "com.app", "config.arm64.apk"]]
    else []
  rglob_sub := by
    intro p f h
    dsimp only at h
    split at h
    · rename_i hp
      subst hp
      simp only [List.mem_cons, List.not_mem_nil, or_false] at h
      rcases h with rfl | rfl <;> decide
    · exact absurd h (List.not_mem_nil f)

def procOk : ProcResult := ⟨0, [], []⟩

def procFail : ProcResult := ⟨1, [], []⟩

/-- World where the single-file artifact pre-exists and credentials are set. -/
def wFile : World :=
  ⟨"user", "tok", ["tmp"], "tmp", fsWithFile, procOk, fsWithFile, fun _ => "", "0.10"⟩

/-- World where only the archive pre-exists. -/
def wZip : World :=
  ⟨"user", "tok", ["tmp"], "tmp", fsWithZip, procOk, fsWithZip, fun _ => "", "0.10"⟩

/-- World with the single-file artifact on disk but an empty email variable. -/
def wNoCreds : World :=
  ⟨"", "tok", ["tmp"], "tmp", fsWithFile, procOk, fsWithFile, fun _ => "", "0.10"⟩

/-- World where nothing pre-exists and the external process exits with 1. -/
def wExitOne : World :=
  ⟨"user", "tok", ["tmp"], "tmp", fsEmpty, procFail, fsEmpty, fun _ => "", "0.10"⟩

/-- World where the process succeeds and leaves the split directory. -/
def wDir : World :=
  ⟨"user", "tok", ["tmp"], "tmp", fsEmpty, procOk, fsWithDir, fun _ => "", "0.10"⟩

/-- World where the process succeeds but produces no output at all. -/
def wNoOutput : World :=
  ⟨"user", "tok", ["tmp"], "tmp", fsEmpty, procOk, fsEmpty, fun _ => "", "0.10"⟩

/-! Helper lemmas shared by the claim theorems. -/

theorem specific_version_trace (w : World) (pkg ver : String) :
    (specific_version w pkg ver).2 =
      Ev.logWarn (warn_msg pkg ver) :: (run_apkeep w pkg).2 := by
  unfold specific_version
  rcases h : run_apkeep w pkg with ⟨r, evs⟩
  cases r <;> simp

theorem latest_version_trace (w : World) (pkg : String) :
    (latest_version w pkg).2 = (run_apkeep w pkg).2 := by
  unfold latest_version
  rcases h : run_apkeep w pkg with ⟨r, evs⟩
  cases r <;> simp

theorem mem_run_apkeep_trace (w : World) (pkg : String) (e : Ev)
    (he : e ∈ (run_apkeep w pkg).2) :
    (∃ n, e = Ev.envRead n) ∨ (∃ p, e = Ev.fsCheck p) ∨ (∃ c, e = Ev.spawn c) ∨
    (∃ m, e = Ev.logInfo m) ∨
    e = Ev.zipCreate (w.tempFolder ++ [pkg ++ ".zip"]) ZIP_DEFLATED ∨
    (∃ f, f ∈ w.fs1.rglob (w.tempFolder ++ [pkg]) ∧
      e = Ev.zipEntry f (f.drop w.tempFolder.length)) := by
  simp only [run_apkeep] at he
  split_ifs at he <;>
    simp only [List.mem_append, List.mem_cons, List.not_mem_nil, List.mem_map,
      or_false] at he <;>
    aesop

theorem run_apkeep_ok_name (w : World) (pkg fn : String)
    (h : (run_apkeep w pkg).1 = Except.ok fn) :
    fn = pkg ++ ".apk" ∨ fn = pkg ++ ".zip" := by
  simp only [run_apkeep] at h
  split_ifs at h <;> simp_all [pathName, List.getLast?_concat]

/-- C1: for every package identifier and requested version, the provenance URI
returned by `specific_version` equals the provenance URI returned by
`latest_version` for that package; it has the fixed shape
`<scheme>://<source>/<package>` with scheme `apkeep` and source `google-play`,
so the requested version is never embedded in it. -/
theorem C1_provenance_uri_agreement (w w' : World) (pkg ver fn fn' u u' : String)
    (hs : (specific_version w pkg ver).1 = Except.ok (fn, u))
    (hl : (latest_version w' pkg).1 = Except.ok (fn', u')) :
    u = u' ∧ u = "apkeep://google-play/" ++ pkg ∧
      "apkeep://google-play/" = "apkeep" ++ "://" ++ "google-play" ++ "/" := by
  unfold specific_version at hs
  unfold latest_version at hl
  rcases h1 : run_apkeep w pkg with ⟨r1, evs1⟩
  rcases h2 : run_apkeep w' pkg with ⟨r2, evs2⟩
  rw [h1] at hs
  rw [h2] at hl
  cases r1 <;> cases r2 <;> simp_all

/-- C1 witness at a concrete world where both entry points succeed. -/
theorem C1_provenance_uri_agreement_witness :
    "apkeep://google-play/com.app" = "apkeep://google-play/com.app" ∧
    "apkeep://google-play/com.app" = "apkeep://google-play/" ++ "com.app" ∧
    "apkeep://google-play/" = "apkeep" ++ "://" ++ "google-play" ++ "/" :=
  C1_provenance_uri_agreement wFile wFile "com.app" "9.9" "com.app.apk" "com.app.apk"
    "apkeep://google-play/com.app" "apkeep://google-play/com.app" rfl rfl

/-- C7: `specific_version` emits exactly one warning-level log message, as the
very first effect (hence before delegating to the fetch), and the message
states that specific versions are unsupported and that the latest version is
downloaded instead, naming the package and the requested version. -/
theorem C7_single_warning (w : World) (pkg ver : String) :
    ((specific_version w pkg ver).2).countP Ev.isWarn = 1 ∧
    ((specific_version w pkg ver).2).head? = some (Ev.logWarn (warn_msg pkg ver)) ∧
    warn_msg pkg ver =
      "apkeep with Google Play does not support specific versions. Requested " ++
        pkg ++ "@" ++ ver ++ ", downloading latest instead." := by
  refine ⟨?_, ?_, rfl⟩
  · rw [specific_version_trace, List.countP_cons]
    have h0 : (run_apkeep w pkg).2.countP Ev.isWarn = 0 := by
      rw [List.countP_eq_zero]
      intro e he
      rcases mem_run_apkeep_trace w pkg e he with
        ⟨n, rfl⟩ | ⟨p, rfl⟩ | ⟨c, rfl⟩ | ⟨m, rfl⟩ | rfl | ⟨f, hf, rfl⟩ <;>
        simp [Ev.isWarn]
    simp [h0, Ev.isWarn]
  · rw [specific_version_trace]
    rfl

/-- C10: every successful call, through either entry point, returns an
artifact file name of the form `<package>.apk` or `<package>.zip`. -/
theorem C10_artifact_name_shape (w : World) (pkg ver fn u : String) :
    ((specific_version w pkg ver).1 = Except.ok (fn, u) →
      fn = pkg ++ ".apk" ∨ fn = pkg ++ ".zip") ∧
    ((latest_version w pkg).1 = Except.ok (fn, u) →
      fn = pkg ++ ".apk" ∨ fn = pkg ++ ".zip") := by
  constructor
  · intro hs
    unfold specific_version at hs
    rcases h1 : run_apkeep w pkg with ⟨r1, evs1⟩
    rw [h1] at hs
    cases r1 with
    | ok v =>
        have : (run_apkeep w pkg).1 = Except.ok v := by rw [h1]
        have hv := run_apkeep_ok_name w pkg v this
        simp only at hs
        cases hs
        simpa using hv
    | error m => simp at hs
  · intro hl
    unfold latest_version at hl
    rcases h1 : run_apkeep w pkg with ⟨r1, evs1⟩
    rw [h1] at hl
    cases r1 with
    | ok v =>
        have : (run_apkeep w pkg).1 = Except.ok v := by rw [h1]
        have hv := run_apkeep_ok_name w pkg v this
        simp only at hl
        cases hl
        simpa using hv
    | error m => simp at hl

/-- C10 witness at a concrete world where the single-file artifact exists. -/
theorem C10_artifact_name_shape_witness :
    "com.app.apk" = "com.app" ++ ".apk" ∨ "com.app.apk" = "com.app" ++ ".zip" :=
  (C10_artifact_name_shape wFile "com.app" "1.0" "com.app.apk"
    "apkeep://google-play/com.app").1 rfl

/-- C2 counterexample: with the single-file artifact already on disk but an
empty email credential, the fetch raises the credentials error instead of
returning the file's name, so the claim as stated fails. -/
theorem C2_counterexample :
    wNoCreds.fs0.pexists (wNoCreds.tempFolder ++ ["com.app" ++ ".apk"]) = true ∧
    (run_apkeep wNoCreds "com.app").1 ≠ Except.ok ("com.app" ++ ".apk") ∧
    (run_apkeep wNoCreds "com.app").1 =
      Except.error "APKEEP_EMAIL and APKEEP_TOKEN must be set in environment." := by
  refine ⟨by decide, ?_, rfl⟩
  intro h
  rw [show (run_apkeep wNoCreds "com.app").1 =
    Except.error "APKEEP_EMAIL and APKEEP_TOKEN must be set in environment." from rfl] at h
  exact Except.noConfusion h

/-- C2 (amended): provided both credential environment variables are
non-empty, if the single-file artifact path already exists before the call
the fetch returns that file's name and never spawns the external tool, and
otherwise if the archive path already exists the fetch returns the archive's
name and never spawns the external tool. -/
theorem C2_idempotence (w : World) (pkg : String)
    (he : w.email ≠ "") (ht : w.token ≠ "") :
    (w.fs0.pexists (w.tempFolder ++ [pkg ++ ".apk"]) = true →
      (run_apkeep w pkg).1 = Except.ok (pkg ++ ".apk") ∧
      ∀ e ∈ (run_apkeep w pkg).2, e.isSpawn = false) ∧
    (w.fs0.pexists (w.tempFolder ++ [pkg ++ ".apk"]) = false →
      w.fs0.pexists (w.tempFolder ++ [pkg ++ ".zip"]) = true →
      (run_apkeep w pkg).1 = Except.ok (pkg ++ ".zip") ∧
      ∀ e ∈ (run_apkeep w pkg).2, e.isSpawn = false) := by
  constructor
  · intro h1
    simp [run_apkeep, he, ht, h1, Ev.isSpawn]
  · intro h1 h2
    simp [run_apkeep, he, ht, h1, h2, Ev.isSpawn, pathName, List.getLast?_concat]

/-- C2 witness: concrete pre-existing single-file artifact. -/
theorem C2_idempotence_witness :
    (run_apkeep wFile "com.app").1 = Except.ok ("com.app" ++ ".apk") :=
  ((C2_idempotence wFile "com.app" (by decide) (by decide)).1 (by decide)).1

theorem filterMap_some_comp {α β : Type} (g : α → β) (l : List α) :
    List.filterMap (fun x => some (g x)) l = List.map g l := by
  induction l with
  | nil => rfl
  | cons a t ih => simp [List.filterMap_cons, ih]

/-- C3: when the external process exits 0 and afterwards the single-file path
is absent while the directory path is a directory, the fetch writes a
deflate-compressed archive at the archive path whose entries are exactly the
files the directory walk yields, each under its path relative to the temp
directory, and returns the archive's name. -/
theorem C3_archive_packaging (w : World) (pkg : String)
    (he : w.email ≠ "") (ht : w.token ≠ "")
    (h1 : w.fs0.pexists (w.tempFolder ++ [pkg ++ ".apk"]) = false)
    (h2 : w.fs0.pexists (w.tempFolder ++ [pkg ++ ".zip"]) = false)
    (hrc : w.proc.returncode = 0)
    (h3 : w.fs1.pexists (w.tempFolder ++ [pkg ++ ".apk"]) = false)
    (h4 : w.fs1.pexists (w.tempFolder ++ [pkg]) = true)
    (h5 : w.fs1.isDir (w.tempFolder ++ [pkg]) = true) :
    (run_apkeep w pkg).1 = Except.ok (pkg ++ ".zip") ∧
    Ev.zipCreate (w.tempFolder ++ [pkg ++ ".zip"]) ZIP_DEFLATED ∈ (run_apkeep w pkg).2 ∧
    zipEntriesOf (run_apkeep w pkg).2 =
      (w.fs1.rglob (w.tempFolder ++ [pkg])).map
        (fun f => (f, f.drop w.tempFolder.length)) ∧
    ∀ f ∈ w.fs1.rglob (w.tempFolder ++ [pkg]),
      w.tempFolder ++ f.drop w.tempFolder.length = f := by
  refine ⟨?_, ?_, ?_, ?_⟩
  · simp [run_apkeep, he, ht, h1, h2, hrc, h3, h4, h5, pathName, List.getLast?_concat]
  · simp [run_apkeep, he, ht, h1, h2, hrc, h3, h4, h5]
  · simp only [run_apkeep]
    rw [if_neg (by simp [he, ht]), if_neg (by simp [h1]), if_neg (by simp [h2]),
      if_neg (by simp [hrc]), if_neg (by simp [h3]), if_pos (by simp [h4, h5])]
    simp only [zipEntriesOf, List.filterMap_append, List.filterMap_cons,
      List.filterMap_nil, List.filterMap_map]
    simp only [Function.comp_def, List.nil_append]
    exact filterMap_some_comp _ _
  · intro f hf
    obtain ⟨t, ht'⟩ := w.fs1.rglob_sub _ f hf
    rw [← ht', List.append_assoc, List.drop_left]

/-- C3 witness: concrete directory of two split files is archived. -/
theorem C3_archive_packaging_witness :
    (run_apkeep wDir "com.app").1 = Except.ok ("com.app" ++ ".zip") ∧
    zipEntriesOf (run_apkeep wDir "com.app").2 =
      (wDir.fs1.rglob (wDir.tempFolder ++ ["com.app"])).map
        (fun f => (f, f.drop wDir.tempFolder.length)) :=
  ⟨(C3_archive_packaging wDir "com.app" (by decide) (by decide) (by decide) (by decide)
      (by decide) (by decide) (by decide) (by decide)).1,
   (C3_archive_packaging wDir "com.app" (by decide) (by decide) (by decide) (by decide)
      (by decide) (by decide) (by decide) (by decide)).2.2.1⟩

/-- C4: when the external process was spawned (credentials set, no cached
artifact) and exits nonzero, the fetch fails with the message carrying the
exit code, the package identifier and the stripped best-effort-decoded
standard error, with the non-empty placeholder `no details` when standard
error is empty. -/
theorem C4_nonzero_exit (w : World) (pkg : String)
    (he : w.email ≠ "") (ht : w.token ≠ "")
    (h1 : w.fs0.pexists (w.tempFolder ++ [pkg ++ ".apk"]) = false)
    (h2 : w.fs0.pexists (w.tempFolder ++ [pkg ++ ".zip"]) = false)
    (hrc : w.proc.returncode ≠ 0) :
    (run_apkeep w pkg).1 = Except.error
      ("apkeep failed with exit code " ++ toString w.proc.returncode ++
        " for " ++ pkg ++ ": " ++
        (if w.proc.stderr ≠ [] then (w.decodeReplace w.proc.stderr).trim
         else "no details")) ∧
    "no details" ≠ "" := by
  refine ⟨?_, by decide⟩
  simp [run_apkeep, he, ht, h1, h2, hrc]

/-- C4 witness: concrete failing process with empty standard error. -/
theorem C4_nonzero_exit_witness :
    (run_apkeep wExitOne "com.app").1 = Except.error
      ("apkeep failed with exit code " ++ toString wExitOne.proc.returncode ++
        " for " ++ "com.app" ++ ": " ++
        (if wExitOne.proc.stderr ≠ [] then
          (wExitOne.decodeReplace wExitOne.proc.stderr).trim
         else "no details")) ∧
    "no details" ≠ "" :=
  C4_nonzero_exit wExitOne "com.app" (by decide) (by decide) (by decide) (by decide)
    (by decide)

/-- C5: when the external process was spawned and exits 0 but afterwards
neither the single-file path nor the directory path exists, the fetch fails
with the anomaly message naming both expected paths. -/
theorem C5_missing_output_anomaly (w : World) (pkg : String)
    (he : w.email ≠ "") (ht : w.token ≠ "")
    (h1 : w.fs0.pexists (w.tempFolder ++ [pkg ++ ".apk"]) = false)
    (h2 : w.fs0.pexists (w.tempFolder ++ [pkg ++ ".zip"]) = false)
    (hrc : w.proc.returncode = 0)
    (h3 : w.fs1.pexists (w.tempFolder ++ [pkg ++ ".apk"]) = false)
    (h4 : w.fs1.pexists (w.tempFolder ++ [pkg]) = false) :
    (run_apkeep w pkg).1 = Except.error
      ("APK not found after apkeep. Expected " ++
        pathStr (w.tempFolder ++ [pkg ++ ".apk"]) ++ " or " ++
        pathStr (w.tempFolder ++ [pkg])) := by
  simp [run_apkeep, he, ht, h1, h2, hrc, h3, h4]

/-- C5 witness: concrete successful process that produced no output. -/
theorem C5_missing_output_anomaly_witness :
    (run_apkeep wNoOutput "com.app").1 = Except.error
      ("APK not found after apkeep. Expected " ++
        pathStr (wNoOutput.tempFolder ++ ["com.app" ++ ".apk"]) ++ " or " ++
        pathStr (wNoOutput.tempFolder ++ ["com.app"])) :=
  C5_missing_output_anomaly wNoOutput "com.app" (by decide) (by decide) (by decide)
    (by decide) (by decide) (by decide) (by decide)

/-- C6: if either credential environment variable is empty, both entry points
fail with the credentials error and their traces contain no filesystem check
and no process spawn. -/
theorem C6_missing_credentials (w : World) (pkg ver : String)
    (h : w.email = "" ∨ w.token = "") :
    ((specific_version w pkg ver).1 =
        Except.error "APKEEP_EMAIL and APKEEP_TOKEN must be set in environment." ∧
      ∀ e ∈ (specific_version w pkg ver).2, e.isFsCheck = false ∧ e.isSpawn = false) ∧
    ((latest_version w pkg).1 =
        Except.error "APKEEP_EMAIL and APKEEP_TOKEN must be set in environment." ∧
      ∀ e ∈ (latest_version w pkg).2, e.isFsCheck = false ∧ e.isSpawn = false) := by
  have hrun : run_apkeep w pkg =
      (Except.error "APKEEP_EMAIL and APKEEP_TOKEN must be set in environment.",
        [Ev.envRead "APKEEP_EMAIL", Ev.envRead "APKEEP_TOKEN"]) := by
    simp only [run_apkeep]
    rw [if_pos h]
  refine ⟨⟨?_, ?_⟩, ?_, ?_⟩
  · simp [specific_version, hrun]
  · simp [specific_version, hrun, Ev.isFsCheck, Ev.isSpawn]
  · simp [latest_version, hrun]
  · simp [latest_version, hrun, Ev.isFsCheck, Ev.isSpawn]

/-- C6 witness: concrete world with an empty email variable. -/
theorem C6_missing_credentials_witness :
    (specific_version wNoCreds "com.app" "1.0").1 =
      Except.error "APKEEP_EMAIL and APKEEP_TOKEN must be set in environment." ∧
    (latest_version wNoCreds "com.app").1 =
      Except.error "APKEEP_EMAIL and APKEEP_TOKEN must be set in environment." :=
  ⟨(C6_missing_credentials wNoCreds "com.app" "1.0" (by decide)).1.1,
   (C6_missing_credentials wNoCreds "com.app" "1.0" (by decide)).2.1⟩

/-- C8: the fetch never emits a deletion effect — in particular the unpacked
directory is left on disk — and the only file-creating effect it can emit is
the single deflate-compressed archive at the archive path, at most once per
call. -/
theorem C8_no_deletion_frame (w : World) (pkg : String) :
    (∀ e ∈ (run_apkeep w pkg).2, e.isDelete = false) ∧
    (∀ p c, Ev.zipCreate p c ∈ (run_apkeep w pkg).2 →
      p = w.tempFolder ++ [pkg ++ ".zip"] ∧ c = ZIP_DEFLATED) ∧
    ((run_apkeep w pkg).2).countP Ev.isCreate ≤ 1 := by
  refine ⟨?_, ?_, ?_⟩
  · intro e he
    rcases mem_run_apkeep_trace w pkg e he with
      ⟨n, rfl⟩ | ⟨p, rfl⟩ | ⟨c, rfl⟩ | ⟨m, rfl⟩ | rfl | ⟨f, hf, rfl⟩ <;>
      simp [Ev.isDelete]
  · intro p c hm
    rcases mem_run_apkeep_trace w pkg (Ev.zipCreate p c) hm with
      ⟨n, h⟩ | ⟨q, h⟩ | ⟨cc, h⟩ | ⟨m, h⟩ | h | ⟨f, hf, h⟩ <;> simp_all
  · simp only [run_apkeep]
    split_ifs <;>
      simp [List.countP_append, List.countP_cons, List.countP_map, List.countP_nil,
        Ev.isCreate, Function.comp_def]

/-- C9: a failing call — through the fetch or either entry point over the
same world — creates no file: its trace contains no archive creation and no
archive entry write. -/
theorem C9_failure_creates_nothing (w : World) (pkg ver : String)
    (h : ∃ m, (run_apkeep w pkg).1 = Except.error m) :
    (∀ e ∈ (run_apkeep w pkg).2, e.isCreate = false ∧ e.isZipWrite = false) ∧
    (∀ e ∈ (specific_version w pkg ver).2, e.isCreate = false ∧ e.isZipWrite = false) ∧
    (∀ e ∈ (latest_version w pkg).2, e.isCreate = false ∧ e.isZipWrite = false) := by
  obtain ⟨m, hm⟩ := h
  have hrun : ∀ e ∈ (run_apkeep w pkg).2, e.isCreate = false ∧ e.isZipWrite = false := by
    intro e he
    simp only [run_apkeep] at hm he
    split_ifs at hm he <;> aesop
  refine ⟨hrun, ?_, ?_⟩
  · intro e he
    rw [specific_version_trace] at he
    rcases List.mem_cons.mp he with rfl | he'
    · exact ⟨rfl, rfl⟩
    · exact hrun e he'
  · intro e he
    rw [latest_version_trace] at he
    exact hrun e he

/-- C9 witness: failing concrete call (empty email) whose trace events all
create nothing; stated for the head event of the trace. -/
theorem C9_failure_creates_nothing_witness :
    (Ev.envRead "APKEEP_EMAIL").isCreate = false ∧
    (Ev.envRead "APKEEP_EMAIL").isZipWrite = false :=
  (C9_failure_creates_nothing wNoCreds "com.app" "1.0"
    ⟨"APKEEP_EMAIL and APKEEP_TOKEN must be set in environment.", rfl⟩).1
    (Ev.envRead "APKEEP_EMAIL") (by decide)
